import Mathlib

set_option maxHeartbeats 1000000
set_option maxRecDepth 4000

/-!
Verification development for the pg_webtransport repository.

The repository has two halves:

* a browser-class Postgres client (`src/client/src/connection.rs`) that frames
  backend messages out of a WebTransport bidirectional stream and drives the
  startup/SASL authentication sequence, and
* a relay server (`src/src/*.rs`, `src/proxy/src/*.rs`) that negotiates one
  WebTransport session per QUIC connection and proxies one bidirectional
  stream to a TCP upstream.

Bytes are modelled as natural numbers (0–255 in every real execution; the
multi-byte readers reduce mod 256 exactly where the machine reads a `u8`).
The byte-level parsers (`Header.parse`, `Message.parse`) embed the
`postgres_protocol` crate's backend-message parser for the message kinds the
client code consumes; the remaining tags of the catalog are mapped to the
crate's unknown-tag parse error (the client treats every such message as a
fatal error anyway, and no claim distinguishes them).  Fallible operations
return `Except` with the error text as its ASCII byte list; asynchronous
network reads are modelled by an explicit list of chunks, and the possibly
non-terminating `decode` loop by a fuel parameter where `none` means the loop
never returns.
-/

deriving instance DecidableEq for Except

namespace PgWT

/-- ASCII bytes of "Error parsing the header from a backend message: " -/
def errHeaderCtx : List Nat := [69, 114, 114, 111, 114, 32, 112, 97, 114, 115, 105, 110, 103, 32, 116, 104, 101, 32, 104, 101, 97, 100, 101, 114, 32, 102, 114, 111, 109, 32, 97, 32, 98, 97, 99, 107, 101, 110, 100, 32, 109, 101, 115, 115, 97, 103, 101, 58, 32]

/-- ASCII bytes of "Error parsing the next message from the backend: " -/
def errMessageCtx : List Nat := [69, 114, 114, 111, 114, 32, 112, 97, 114, 115, 105, 110, 103, 32, 116, 104, 101, 32, 110, 101, 120, 116, 32, 109, 101, 115, 115, 97, 103, 101, 32, 102, 114, 111, 109, 32, 116, 104, 101, 32, 98, 97, 99, 107, 101, 110, 100, 58, 32]

/-- ASCII bytes of "invalid message length: parsing u32" -/
def errParsingU32 : List Nat := [105, 110, 118, 97, 108, 105, 100, 32, 109, 101, 115, 115, 97, 103, 101, 32, 108, 101, 110, 103, 116, 104, 58, 32, 112, 97, 114, 115, 105, 110, 103, 32, 117, 51, 50]

/-- ASCII bytes of "invalid message length: expected buffer to be empty" -/
def errExpectEmpty : List Nat := [105, 110, 118, 97, 108, 105, 100, 32, 109, 101, 115, 115, 97, 103, 101, 32, 108, 101, 110, 103, 116, 104, 58, 32, 101, 120, 112, 101, 99, 116, 101, 100, 32, 98, 117, 102, 102, 101, 114, 32, 116, 111, 32, 98, 101, 32, 101, 109, 112, 116, 121]

/-- ASCII bytes of "unexpected EOF" -/
def errEOF : List Nat := [117, 110, 101, 120, 112, 101, 99, 116, 101, 100, 32, 69, 79, 70]

/-- ASCII bytes of "unknown authentication tag" -/
def errUnknownAuthTag : List Nat := [117, 110, 107, 110, 111, 119, 110, 32, 97, 117, 116, 104, 101, 110, 116, 105, 99, 97, 116, 105, 111, 110, 32, 116, 97, 103]

/-- ASCII bytes of "unknown message tag" -/
def errUnknownTag : List Nat := [117, 110, 107, 110, 111, 119, 110, 32, 109, 101, 115, 115, 97, 103, 101, 32, 116, 97, 103]

/-- Big-endian 32-bit read of four bytes, as `BigEndian::read_u32`/`read_i32`
read them from a `u8` slice (each byte reduced mod 256). -/
def readU32BE (a b c d : Nat) : Nat :=
  (a % 256) * 16777216 + (b % 256) * 65536 + (c % 256) * 256 + d % 256

/-- A parsed backend message header: the 1-byte tag and the declared length
(a 4-byte big-endian integer that counts itself and the payload but not the
tag), from `postgres_protocol::message::backend::Header`. -/
structure Header where
  tag : Nat
  len : Nat
deriving DecidableEq

/-- `Header::parse`: `Ok(None)` when fewer than 5 bytes are available;
otherwise read the tag byte and the length as a big-endian `i32` and reject a
length below 4 (which includes every value with the i32 sign bit set,
i.e. `2^31 ≤ len` as an unsigned read). -/
def Header.parse (buf : List Nat) : Except (List Nat) (Option Header) :=
  match buf with
  | t :: a :: b :: c :: d :: _ =>
    let len := readU32BE a b c d
    if len < 4 ∨ 2147483648 ≤ len then .error errParsingU32
    else .ok (some ⟨t, len⟩)
  | _ => .ok none

/-- The backend messages the client consumes (the `Message` variants of
`postgres_protocol` matched anywhere in `src/client`), plus the other simple
variants needed to parse a complete session-establishment exchange.  Bodies
that the crate stores lazily are kept as their raw byte storage. -/
inductive Message where
  | parseComplete
  | bindComplete
  | closeComplete
  | commandComplete (tag : List Nat)
  | dataRow (fieldCount : Nat) (storage : List Nat)
  | errorResponse (storage : List Nat)
  | backendKeyData (processId secretKey : Nat)
  | noticeResponse (storage : List Nat)
  | authenticationOk
  | authenticationSasl (mechanisms : List Nat)
  | authenticationSaslContinue (data : List Nat)
  | authenticationSaslFinal (data : List Nat)
  | parameterStatus (name value : List Nat)
  | readyForQuery (status : Nat)
deriving DecidableEq

/-- Read a big-endian `i32` from the front of a buffer (kept as its unsigned
integer value; only equality against small tags is ever tested). -/
def readI32 : List Nat → Except (List Nat) (Nat × List Nat)
  | a :: b :: c :: d :: rest => .ok (readU32BE a b c d, rest)
  | _ => .error errEOF

/-- Read a big-endian `u16` from the front of a buffer. -/
def readU16 : List Nat → Except (List Nat) (Nat × List Nat)
  | a :: b :: rest => .ok ((a % 256) * 256 + b % 256, rest)
  | _ => .error errEOF

/-- Read a null-terminated C string from the front of a buffer. -/
def readCStr : List Nat → Except (List Nat) (List Nat × List Nat)
  | [] => .error errEOF
  | b :: rest =>
    if b = 0 then .ok ([], rest)
    else
      match readCStr rest with
      | .error e => .error e
      | .ok (s, r) => .ok (b :: s, r)

/-- The crate's end-of-parse check: the split-off message buffer must have
been consumed completely. -/
def requireEmpty (rest : List Nat) (m : Message) : Except (List Nat) Message :=
  if rest.isEmpty then .ok m else .error errExpectEmpty

/-- Tag dispatch of `Message::parse`, applied to the body bytes that follow
the 5 header bytes of the split-off message.  Tags: '1' '2' '3' 'C' 'D' 'E'
'K' 'N' 'R' 'S' 'Z'; any other tag is the crate's unknown-tag error (the tags
of the catalog not modelled here are mapped to that same fatal error, which
no claim distinguishes). -/
def Message.parseTagged (tag : Nat) (body : List Nat) : Except (List Nat) Message :=
  if tag = 49 then requireEmpty body Message.parseComplete
  else if tag = 50 then requireEmpty body Message.bindComplete
  else if tag = 51 then requireEmpty body Message.closeComplete
  else if tag = 67 then
    match readCStr body with
    | .error e => .error e
    | .ok (s, rest) => requireEmpty rest (Message.commandComplete s)
  else if tag = 68 then
    match readU16 body with
    | .error e => .error e
    | .ok (n, rest) => .ok (Message.dataRow n rest)
  else if tag = 69 then .ok (Message.errorResponse body)
  else if tag = 75 then
    match readI32 body with
    | .error e => .error e
    | .ok (pid, rest) =>
      match readI32 rest with
      | .error e => .error e
      | .ok (key, rest2) => requireEmpty rest2 (Message.backendKeyData pid key)
  else if tag = 78 then .ok (Message.noticeResponse body)
  else if tag = 82 then
    match readI32 body with
    | .error e => .error e
    | .ok (sub, rest) =>
      if sub = 0 then requireEmpty rest Message.authenticationOk
      else if sub = 10 then .ok (Message.authenticationSasl rest)
      else if sub = 11 then .ok (Message.authenticationSaslContinue rest)
      else if sub = 12 then .ok (Message.authenticationSaslFinal rest)
      else .error errUnknownAuthTag
  else if tag = 83 then
    match readCStr body with
    | .error e => .error e
    | .ok (name, rest) =>
      match readCStr rest with
      | .error e => .error e
      | .ok (value, rest2) => requireEmpty rest2 (Message.parameterStatus name value)
  else if tag = 90 then
    match body with
    | s :: rest => requireEmpty rest (Message.readyForQuery s)
    | [] => .error errEOF
  else .error errUnknownTag

/-- `Message::parse`: `Ok(None)` when fewer than 5 bytes or fewer than
`declared_length + 1` bytes are buffered; otherwise split off exactly
`declared_length + 1` bytes and parse them by tag (the first 5 bytes are the
header, the remaining `declared_length - 4` the body). -/
def Message.parse (buf : List Nat) : Except (List Nat) (Option Message) :=
  match buf with
  | t :: a :: b :: c :: d :: rest =>
    let len := readU32BE a b c d
    if len < 4 then .error errParsingU32
    else if 5 + rest.length < len + 1 then .ok none
    else (Message.parseTagged t (rest.take (len - 4))).map some
  | _ => .ok none

/-- `Connection::decode_pending` (`src/client/src/connection.rs:57-79`):
parse a header from the front of `pending`; when a header is present and
`pending` holds at least `header.len + 1` bytes, split those bytes off and
parse them as one message; otherwise report that more data is needed by
returning `none` with `pending` untouched.  The returned list is the state
of `pending` after the call. -/
def decode_pending (pending : List Nat) :
    Except (List Nat) (Option Message × List Nat) :=
  match Header.parse pending with
  | .error e => .error (errHeaderCtx ++ e)
  | .ok none => .ok (none, pending)
  | .ok (some header) =>
    if header.len + 1 ≤ pending.length then
      match Message.parse (pending.take (header.len + 1)) with
      | .error e => .error (errMessageCtx ++ e)
      | .ok m => .ok (m, pending.drop (header.len + 1))
    else .ok (none, pending)

/-- `Connection::decode` (`src/client/src/connection.rs:34-54`) as a fueled
loop.  Each iteration calls `decode_pending`; on `none` it reads the next
chunk from the stream and appends it to `pending`.  The chunk list is the
sequence of chunks the transport will deliver; once it is exhausted the
stream is at end-of-stream, where the code reads `value = undefined` from the
settled read and turns it into an **empty** `Uint8Array` (it never checks the
`done` flag), so an end-of-stream read appends nothing and the loop retries
with `pending` unchanged.  `none` means the loop did not return within `fuel`
iterations; since an iteration at end-of-stream changes nothing, exhausting
`chunks.length + 1` iterations without returning means the loop never
returns. -/
def decodeFuel : Nat → List Nat → List (List Nat) →
    Option (Except (List Nat) (Option Message) × List Nat × List (List Nat))
  | 0, _, _ => none
  | fuel + 1, pending, chunks =>
    match decode_pending pending with
    | .error e => some (.error e, pending, chunks)
    | .ok (some m, rest) => some (.ok (some m), rest, chunks)
    | .ok (none, _) =>
      match chunks with
      | [] => decodeFuel fuel pending []
      | c :: cs => decodeFuel fuel (pending ++ c) cs

/-- One call of `Connection::decode` on the current buffer state: the loop
performs at most `chunks.length + 1` `decode_pending` checks before the
stream is exhausted, after which no iteration can change the state, so this
fuel is exact (`none` here means the Rust loop never returns). -/
def decodeRun (pending : List Nat) (chunks : List (List Nat)) :
    Option (Except (List Nat) (Option Message) × List Nat × List (List Nat)) :=
  decodeFuel (chunks.length + 1) pending chunks

/-- Repeated `decode_pending` calls on one buffer, as the inner (network-free)
loop of `decode` performs them: collect the messages returned by successive
successful calls, stopping at the first call that reports `none` (needs more
data) and returning the buffer state it left behind. -/
def drainFuel : Nat → List Nat → Except (List Nat) (List Message × List Nat)
  | 0, pending => .ok ([], pending)
  | n + 1, pending =>
    match decode_pending pending with
    | .error e => .error e
    | .ok (none, rest) => .ok ([], rest)
    | .ok (some m, rest) =>
      match drainFuel n rest with
      | .error e => .error e
      | .ok (ms, fin) => .ok (m :: ms, fin)

/-! ### The startup / authentication sequence (`Startup::start` and `sasl`) -/

/-- ASCII bytes of "Unsupported backend message type" -/
def errUnsupportedBackend : List Nat := [85, 110, 115, 117, 112, 112, 111, 114, 116, 101, 100, 32, 98, 97, 99, 107, 101, 110, 100, 32, 109, 101, 115, 115, 97, 103, 101, 32, 116, 121, 112, 101]

/-- ASCII bytes of "Connection closed" -/
def errConnClosed : List Nat := [67, 111, 110, 110, 101, 99, 116, 105, 111, 110, 32, 99, 108, 111, 115, 101, 100]

/-- ASCII bytes of "Connection closed during authentication" -/
def errConnClosedAuth : List Nat := [67, 111, 110, 110, 101, 99, 116, 105, 111, 110, 32, 99, 108, 111, 115, 101, 100, 32, 100, 117, 114, 105, 110, 103, 32, 97, 117, 116, 104, 101, 110, 116, 105, 99, 97, 116, 105, 111, 110]

/-- ASCII bytes of "Unexpected message during SASL handshake" -/
def errUnexpectedSasl : List Nat := [85, 110, 101, 120, 112, 101, 99, 116, 101, 100, 32, 109, 101, 115, 115, 97, 103, 101, 32, 100, 117, 114, 105, 110, 103, 32, 83, 65, 83, 76, 32, 104, 97, 110, 100, 115, 104, 97, 107, 101]

/-- ASCII bytes of "Unexpected message finalizing SASL handshake" -/
def errUnexpectedSaslFinal : List Nat := [85, 110, 101, 120, 112, 101, 99, 116, 101, 100, 32, 109, 101, 115, 115, 97, 103, 101, 32, 102, 105, 110, 97, 108, 105, 122, 105, 110, 103, 32, 83, 65, 83, 76, 32, 104, 97, 110, 100, 115, 104, 97, 107, 101]

/-- ASCII bytes of "Unexpected backend message type" -/
def errUnexpectedBackend : List Nat := [85, 110, 101, 120, 112, 101, 99, 116, 101, 100, 32, 98, 97, 99, 107, 101, 110, 100, 32, 109, 101, 115, 115, 97, 103, 101, 32, 116, 121, 112, 101]

/-- ASCII bytes of "Error continuing SASL handshake: " -/
def errScramContinueCtx : List Nat := [69, 114, 114, 111, 114, 32, 99, 111, 110, 116, 105, 110, 117, 105, 110, 103, 32, 83, 65, 83, 76, 32, 104, 97, 110, 100, 115, 104, 97, 107, 101, 58, 32]

/-- ASCII bytes of "Error finalizing SASL handshake: " -/
def errScramFinalCtx : List Nat := [69, 114, 114, 111, 114, 32, 102, 105, 110, 97, 108, 105, 122, 105, 110, 103, 32, 83, 65, 83, 76, 32, 104, 97, 110, 100, 115, 104, 97, 107, 101, 58, 32]

/-- ASCII bytes of "Errors: " -/
def errorsLabel : List Nat := [69, 114, 114, 111, 114, 115, 58, 32]

/-- ASCII bytes of " " -/
def spaceByte : List Nat := [32]

/-- The field values of an `ErrorResponse` body, as the crate's fallible
fields iterator yields them and as the `while let Ok(Some(field))` loop of
`format_error` consumes them: read a field-type byte (a 0 byte ends the
list), then the field's null-terminated value; the loop also stops silently
at any iterator error (truncated storage).  Fueled by the storage length,
which bounds the number of fields. -/
def errorFieldsAux : Nat → List Nat → List (List Nat)
  | 0, _ => []
  | _, [] => []
  | f + 1, t :: rest =>
    if t = 0 then []
    else
      match readCStr rest with
      | .error _ => []
      | .ok (v, r) => v :: errorFieldsAux f r

/-- `format_error` (`src/client/src/connection.rs:198-209`): "Errors: "
followed by every field value of the response, each followed by a space. -/
def format_error (storage : List Nat) : List Nat :=
  errorsLabel ++ ((errorFieldsAux storage.length storage).map (fun v => v ++ spaceByte)).flatten

/-- The SCRAM-SHA-256 state held by `sasl` as an oracle: `update` advances
the SCRAM exchange with the server-first message and `finish` verifies the
server-final message.  The cryptographic contents (random nonce, salted-hash
proofs) do not influence the client's control flow beyond success/failure,
which is all the claims mention, so they stay abstract. -/
structure ScramOracle where
  update : List Nat → Except (List Nat) Unit
  finish : List Nat → Except (List Nat) Unit

/-- A SCRAM oracle that accepts every server message (a successful
exchange). -/
def okScram : ScramOracle := ⟨fun _ => .ok (), fun _ => .ok ()⟩

/-- The messages `Startup::start`/`sasl` write to the stream, in order.  The
encoded payloads (startup parameters, SASL nonce material) do not influence
the decode-side control flow, so sends are traced by kind. -/
inductive SendEvent where
  | startup
  | saslInitial
  | saslResponse
deriving DecidableEq

/-- Fuel that bounds the session-info drain loop: every drained message
removes at least 5 bytes from the combined pool of buffered and still
deliverable bytes, so the loop performs at most this many iterations before
it must either return or hang at end-of-stream. -/
def saslDrainFuel (pending : List Nat) (chunks : List (List Nat)) : Nat :=
  pending.length + (chunks.map List.length).sum + 1

/-- The session-information drain loop at the end of `sasl`
(`src/client/src/connection.rs:180-194`): decode messages until
`ReadyForQuery`; `BackendKeyData`, `ParameterStatus` and `AuthenticationOk`
are **discarded** (the `TODO: use the backend or parameter data` arm) and the
loop continues; `ErrorResponse` and every other message kind are fatal.
`none` means a decode call hung at end-of-stream. -/
def drainLoop : Nat → List Nat → List (List Nat) →
    Option (Except (List Nat) (List Nat × List (List Nat)))
  | 0, _, _ => none
  | f + 1, pending, chunks =>
    match decodeRun pending chunks with
    | none => none
    | some (.error e, _, _) => some (.error e)
    | some (.ok none, _, _) => some (.error errConnClosedAuth)
    | some (.ok (some m), p', c') =>
      match m with
      | .backendKeyData _ _ => drainLoop f p' c'
      | .parameterStatus _ _ => drainLoop f p' c'
      | .authenticationOk => drainLoop f p' c'
      | .readyForQuery _ => some (.ok (p', c'))
      | .errorResponse body => some (.error (format_error body))
      | _ => some (.error errUnexpectedBackend)

/-- The second half of `sasl` (`src/client/src/connection.rs:158-194`): send
the SASL response, decode the finalizer (`AuthenticationSASLFinal` feeds
`scram.finish`, `ErrorResponse` is formatted, anything else is fatal), then
drain session information.  Returns the sends this block performs and the
outcome (`none` = a decode call hung at end-of-stream). -/
def saslAfterContinue (scram : ScramOracle) (pending : List Nat)
    (chunks : List (List Nat)) :
    List SendEvent × Option (Except (List Nat) (List Nat × List (List Nat))) :=
  ([SendEvent.saslResponse],
   match decodeRun pending chunks with
   | none => none
   | some (.error e, _, _) => some (.error e)
   | some (.ok (some (.authenticationSaslFinal body)), p', c') =>
     match scram.finish body with
     | .error e => some (.error (errScramFinalCtx ++ e))
     | .ok _ => drainLoop (saslDrainFuel p' c') p' c'
   | some (.ok (some (.errorResponse body)), _, _) => some (.error (format_error body))
   | some (.ok (some _), _, _) => some (.error errUnexpectedSaslFinal)
   | some (.ok none, _, _) => some (.error errConnClosedAuth))

/-- `sasl` (`src/client/src/connection.rs:131-195`): send the SASL initial
response, decode the continuation (`AuthenticationSASLContinue` feeds
`scram.update`, `ErrorResponse` is formatted, anything else is fatal), then
run the rest of the exchange.  Returns the sends performed, in order, and the
outcome; the final state is the connection's buffer state. -/
def sasl (scram : ScramOracle) (pending : List Nat) (chunks : List (List Nat)) :
    List SendEvent × Option (Except (List Nat) (List Nat × List (List Nat))) :=
  match decodeRun pending chunks with
  | none => ([SendEvent.saslInitial], none)
  | some (.error e, _, _) => ([SendEvent.saslInitial], some (.error e))
  | some (.ok (some (.authenticationSaslContinue body)), p', c') =>
    match scram.update body with
    | .error e => ([SendEvent.saslInitial], some (.error (errScramContinueCtx ++ e)))
    | .ok _ =>
      let r := saslAfterContinue scram p' c'
      (SendEvent.saslInitial :: r.1, r.2)
  | some (.ok (some (.errorResponse body)), _, _) =>
    ([SendEvent.saslInitial], some (.error (format_error body)))
  | some (.ok (some _), _, _) => ([SendEvent.saslInitial], some (.error errUnexpectedSasl))
  | some (.ok none, _, _) => ([SendEvent.saslInitial], some (.error errConnClosedAuth))

/-- `Startup::start` (`src/client/src/connection.rs:88-107`): send the
startup message, decode the authentication request (only `AuthenticationSASL`
is accepted; any other message is "Unsupported backend message type", a
closed stream is "Connection closed"), run `sasl`, and return the inner
connection (represented by its buffer state: the unconsumed pending bytes
and the undelivered chunks).  The startup parameter list only feeds the
encoded payload, never the control flow, so it is not a parameter of the
model. -/
def startup_start (scram : ScramOracle) (chunks : List (List Nat)) :
    List SendEvent × Option (Except (List Nat) (List Nat × List (List Nat))) :=
  match decodeRun [] chunks with
  | none => ([SendEvent.startup], none)
  | some (.error e, _, _) => ([SendEvent.startup], some (.error e))
  | some (.ok (some (.authenticationSasl _)), p', c') =>
    let r := sasl scram p' c'
    (SendEvent.startup :: r.1, r.2)
  | some (.ok (some _), _, _) => ([SendEvent.startup], some (.error errUnsupportedBackend))
  | some (.ok none, _, _) => ([SendEvent.startup], some (.error errConnClosed))

/-! ### Server side: session negotiation, stream accept, per-connection task -/

/-- ASCII bytes of "Request was not a proper CONNECT" -/
def errNotConnect : List Nat := [82, 101, 113, 117, 101, 115, 116, 32, 119, 97, 115, 32, 110, 111, 116, 32, 97, 32, 112, 114, 111, 112, 101, 114, 32, 67, 79, 78, 78, 69, 67, 84]

/-- ASCII bytes of "Request was not using the WEB_TRANSPORT protocol" -/
def errNotWebTransport : List Nat := [82, 101, 113, 117, 101, 115, 116, 32, 119, 97, 115, 32, 110, 111, 116, 32, 117, 115, 105, 110, 103, 32, 116, 104, 101, 32, 87, 69, 66, 95, 84, 82, 65, 78, 83, 80, 79, 82, 84, 32, 112, 114, 111, 116, 111, 99, 111, 108]

/-- ASCII bytes of "Unsupported stream type requested" -/
def errUnsupportedStream : List Nat := [85, 110, 115, 117, 112, 112, 111, 114, 116, 101, 100, 32, 115, 116, 114, 101, 97, 109, 32, 116, 121, 112, 101, 32, 114, 101, 113, 117, 101, 115, 116, 101, 100]

/-- ASCII bytes of "Failed to connect to upstream TCP target: " -/
def errTcpConnectCtx : List Nat := [70, 97, 105, 108, 101, 100, 32, 116, 111, 32, 99, 111, 110, 110, 101, 99, 116, 32, 116, 111, 32, 117, 112, 115, 116, 114, 101, 97, 109, 32, 84, 67, 80, 32, 116, 97, 114, 103, 101, 116, 58, 32]

/-- ASCII bytes of "hello webtransport!" (the 19-byte greeting). -/
def greeting : List Nat := [104, 101, 108, 108, 111, 32, 119, 101, 98, 116, 114, 97, 110, 115, 112, 111, 114, 116, 33]

/-- The HTTP methods distinguished by `Session::start`'s
`matches!(request.method(), &Method::CONNECT)` check. -/
inductive Method where
  | CONNECT
  | GET
  | POST
  | OTHER
deriving DecidableEq

/-- The HTTP/3 protocol extension values compared against
`Protocol::WEB_TRANSPORT`. -/
inductive Protocol where
  | WEB_TRANSPORT
  | OTHER
deriving DecidableEq

/-- The pieces of the first HTTP/3 request that `Session::start` inspects:
its method and its protocol extension (`request.extensions().get()`). -/
structure H3Request where
  method : Method
  protocol : Option Protocol
deriving DecidableEq

/-- The externally visible steps of `Session::start`, traced in order:
the `h3.accept()` call and the `WebTransportSession::accept` call. -/
inductive NegotiateEvent where
  | h3Accept
  | sessionAccept
deriving DecidableEq

/-- The outcomes the transport libraries hand to `Session::start`, supplied
as inputs: QUIC connection establishment, HTTP/3 connection building, the
first request (`Ok(None)` = connection closed before a request), and the
result of `WebTransportSession::accept` should it be reached. -/
structure StartInput where
  connecting : Except (List Nat) Unit
  h3build : Except (List Nat) Unit
  accept : Except (List Nat) (Option H3Request)
  sessionAccept : Except (List Nat) Unit
deriving DecidableEq

/-- `Session::start` (`src/src/session.rs:23-69`, duplicated inline as
`start_session` in `src/src/main.rs:142-189`): await the connection, build
the HTTP/3 connection, accept the first request, require method CONNECT and
protocol extension WEB_TRANSPORT, and only then accept the WebTransport
session.  Returns the outcome and the trace of accept steps performed. -/
def session_start (i : StartInput) :
    Except (List Nat) Unit × List NegotiateEvent :=
  match i.connecting with
  | .error e => (.error e, [])
  | .ok _ =>
    match i.h3build with
    | .error e => (.error e, [])
    | .ok _ =>
      match i.accept with
      | .error e => (.error e, [NegotiateEvent.h3Accept])
      | .ok none => (.error errConnClosed, [NegotiateEvent.h3Accept])
      | .ok (some req) =>
        if req.method = Method.CONNECT then
          if req.protocol = some Protocol.WEB_TRANSPORT then
            match i.sessionAccept with
            | .error e => (.error e, [NegotiateEvent.h3Accept, NegotiateEvent.sessionAccept])
            | .ok _ => (.ok (), [NegotiateEvent.h3Accept, NegotiateEvent.sessionAccept])
          else (.error errNotWebTransport, [NegotiateEvent.h3Accept])
        else (.error errNotConnect, [NegotiateEvent.h3Accept])

/-- The two variants of `AcceptedBi` that `accept_bi` can yield: a
bidirectional stream, or an additional HTTP/3 request (the `todo!()` arm). -/
inductive AcceptedBi where
  | bidiStream
  | request
deriving DecidableEq

/-- Inputs to `Session::accept_bidirectional`: the `accept_bi` outcome
(`Ok(None)` = unsupported stream type) and the outcome of the greeting
`write_all`. -/
structure BidiInput where
  acceptBi : Except (List Nat) (Option AcceptedBi)
  writeGreeting : Except (List Nat) Unit
deriving DecidableEq

/-- `Session::accept_bidirectional` (`src/src/session.rs:73-92`): wait for
the next bidirectional stream request, reject a missing one, panic (`todo!`)
on an additional HTTP/3 request — modelled as the `none` outcome — and, on a
bidirectional stream, write the greeting to it before returning it.  The
second component is the list of chunks written to the stream (on a failed
`write_all` the bytes actually delivered are unspecified and no claim
depends on them, so none are recorded). -/
def accept_bidirectional (i : BidiInput) :
    Option (Except (List Nat) Unit) × List (List Nat) :=
  match i.acceptBi with
  | .error e => (some (.error e), [])
  | .ok none => (some (.error errUnsupportedStream), [])
  | .ok (some AcceptedBi.request) => (none, [])
  | .ok (some AcceptedBi.bidiStream) =>
    match i.writeGreeting with
    | .error e => (some (.error e), [])
    | .ok _ => (some (.ok ()), [greeting])

/-- The calls the per-connection task makes after negotiation, in order. -/
inductive TaskEvent where
  | acceptBidi
  | proxyStart
deriving DecidableEq

/-- Inputs to one per-connection task: the negotiation inputs, the
stream-accept inputs, the TCP connect outcome of `Proxy::start`, and the
chunks `copy_bidirectional` moves from the TCP socket to the stream. -/
structure TaskInput where
  session : StartInput
  bidi : BidiInput
  tcpConnect : Except (List Nat) Unit
  relayed : List (List Nat)
deriving DecidableEq

/-- The per-connection task spawned by the proxy server
(`src/proxy/src/main.rs:74-83`, and the same sequence inline in
`src/src/main.rs:92-131`): negotiate the session, accept one bidirectional
stream, and start one `Proxy::start` relay (`src/proxy/src/proxy.rs:13-32`:
connect to the TCP upstream, then `copy_bidirectional`).  Returns the trace
of calls, the chunks written to the WebTransport stream, and the task's
outcome (`none` = the `todo!()` panic). -/
def connection_task (t : TaskInput) :
    List TaskEvent × List (List Nat) × Option (Except (List Nat) Unit) :=
  match (session_start t.session).1 with
  | .error e => ([], [], some (.error e))
  | .ok _ =>
    let r := accept_bidirectional t.bidi
    match r.1 with
    | none => ([TaskEvent.acceptBidi], r.2, none)
    | some (.error e) => ([TaskEvent.acceptBidi], r.2, some (.error e))
    | some (.ok _) =>
      match t.tcpConnect with
      | .error e =>
        ([TaskEvent.acceptBidi, TaskEvent.proxyStart], r.2, some (.error (errTcpConnectCtx ++ e)))
      | .ok _ =>
        ([TaskEvent.acceptBidi, TaskEvent.proxyStart], r.2 ++ t.relayed, some (.ok ()))

/-! ### Byte-sequence containment and concrete message constants -/

/-- Whether `needle` occurs at the very front of `hay`. -/
def isSeqAt : List Nat → List Nat → Bool
  | [], _ => true
  | _ :: _, [] => false
  | a :: as, b :: bs => a == b && isSeqAt as bs

/-- Whether `needle` occurs contiguously anywhere inside `hay`. -/
def containsSeq (needle : List Nat) : List Nat → Bool
  | [] => needle.isEmpty
  | b :: t => isSeqAt needle (b :: t) || containsSeq needle t

/-- ASCII bytes of "password authentication failed" -/
def pafBytes : List Nat := [112, 97, 115, 115, 119, 111, 114, 100, 32, 97, 117, 116, 104, 101, 110, 116, 105, 99, 97, 116, 105, 111, 110, 32, 102, 97, 105, 108, 101, 100]

/-- The field storage of an `ErrorResponse` with fields
`{S: "FATAL", M: "password authentication failed"}`: each field is a type
byte and a null-terminated value, ended by a 0 byte. -/
def pafStorage : List Nat :=
  [83, 70, 65, 84, 65, 76, 0, 77] ++ pafBytes ++ [0, 0]

/-- The complete `ErrorResponse` ('E') wire message carrying `pafStorage`
(declared length 4 + 40 = 44, total 45 bytes). -/
def pafErrorMsg : List Nat := [69, 0, 0, 0, 44] ++ pafStorage

/-- `AuthenticationSASL` ('R', subtag 10) offering SCRAM-SHA-256
(mechanism list "SCRAM-SHA-256\0\0"; declared length 23, total 24 bytes). -/
def authSaslMsg : List Nat :=
  [82, 0, 0, 0, 23, 0, 0, 0, 10, 83, 67, 82, 65, 77, 45, 83, 72, 65, 45, 50, 53, 54, 0, 0]

/-- ASCII bytes of the server-first SCRAM message "r=abc,s=salt,i=4096". -/
def serverFirstBytes : List Nat := [114, 61, 97, 98, 99, 44, 115, 61, 115, 97, 108, 116, 44, 105, 61, 52, 48, 57, 54]

/-- `AuthenticationSASLContinue` ('R', subtag 11) carrying
`serverFirstBytes` (declared length 27, total 28 bytes). -/
def saslContinueMsg : List Nat := [82, 0, 0, 0, 27, 0, 0, 0, 11] ++ serverFirstBytes

/-- ASCII bytes of the server-final SCRAM message "v=verifier". -/
def serverFinalBytes : List Nat := [118, 61, 118, 101, 114, 105, 102, 105, 101, 114]

/-- `AuthenticationSASLFinal` ('R', subtag 12) carrying `serverFinalBytes`
(declared length 18, total 19 bytes). -/
def saslFinalMsg : List Nat := [82, 0, 0, 0, 18, 0, 0, 0, 12] ++ serverFinalBytes

/-- `AuthenticationOk` ('R', subtag 0; declared length 8, total 9 bytes). -/
def authOkMsg : List Nat := [82, 0, 0, 0, 8, 0, 0, 0, 0]

/-- `BackendKeyData` ('K', process id 1, secret key 2; total 13 bytes). -/
def keyDataMsg : List Nat := [75, 0, 0, 0, 12, 0, 0, 0, 1, 0, 0, 0, 2]

/-- ASCII bytes of "server_version" -/
def serverVersionBytes : List Nat := [115, 101, 114, 118, 101, 114, 95, 118, 101, 114, 115, 105, 111, 110]

/-- `ParameterStatus` ('S') carrying `server_version = value` for a 4-byte
value (declared length 24, total 25 bytes). -/
def paramStatusMsg (value : List Nat) : List Nat :=
  [83, 0, 0, 0, 24] ++ serverVersionBytes ++ [0] ++ value ++ [0]

/-- `ReadyForQuery` ('Z', status 'I'; total 6 bytes). -/
def readyMsg : List Nat := [90, 0, 0, 0, 5, 73]

/-- The literal successful exchange of the spec's §8 scenario, with the
server_version value a parameter: AuthenticationSASL, then
AuthenticationSASLContinue, then AuthenticationSASLFinal, then one chunk
carrying AuthenticationOk + BackendKeyData + ParameterStatus + ReadyForQuery. -/
def exchangeChunks (value : List Nat) : List (List Nat) :=
  [authSaslMsg, saslContinueMsg, saslFinalMsg,
   authOkMsg ++ keyDataMsg ++ paramStatusMsg value ++ readyMsg]

/-- The literal exchange with server_version = "16.0". -/
def exchange16 : List (List Nat) := exchangeChunks [49, 54, 46, 48]

/-- The same exchange with server_version = "17.0". -/
def exchange17 : List (List Nat) := exchangeChunks [49, 55, 46, 48]

/-! ### Helper lemmas: header parsing and `decode_pending` -/

theorem header_parse_short (l : List Nat) (h : l.length < 5) :
    Header.parse l = .ok none := by
  rcases l with _ | ⟨a, _ | ⟨b, _ | ⟨c, _ | ⟨d, _ | ⟨e, r⟩⟩⟩⟩⟩
  · rfl
  · rfl
  · rfl
  · rfl
  · rfl
  · simp at h
    omega

theorem header_parse_take5 (l : List Nat) :
    Header.parse (l.take 5) = Header.parse l := by
  rcases l with _ | ⟨a, _ | ⟨b, _ | ⟨c, _ | ⟨d, _ | ⟨e, r⟩⟩⟩⟩⟩ <;> rfl

theorem header_parse_cons_inv (t a b c d : Nat) (r : List Nat) (hd : Header)
    (h : Header.parse (t :: a :: b :: c :: d :: r) = .ok (some hd)) :
    hd = ⟨t, readU32BE a b c d⟩ ∧ 4 ≤ readU32BE a b c d ∧
      readU32BE a b c d < 2147483648 := by
  simp only [Header.parse] at h
  split at h
  · exact absurd h (by simp)
  · next hcond =>
    simp only [Except.ok.injEq, Option.some.injEq] at h
    simp only [not_or, not_lt, not_le] at hcond
    exact ⟨h.symm, hcond.1, hcond.2⟩

theorem header_parse_some (l : List Nat) (hd : Header)
    (h : Header.parse l = .ok (some hd)) : 4 ≤ hd.len ∧ 5 ≤ l.length := by
  rcases l with _ | ⟨a, _ | ⟨b, _ | ⟨c, _ | ⟨d, _ | ⟨e, r⟩⟩⟩⟩⟩
  · simp [Header.parse] at h
  · simp [Header.parse] at h
  · simp [Header.parse] at h
  · simp [Header.parse] at h
  · simp [Header.parse] at h
  · obtain ⟨he, h4, _⟩ := header_parse_cons_inv a b c d e r hd h
    subst he
    exact ⟨h4, by simp⟩

theorem map_some_ne_none (e : Except (List Nat) Message) :
    e.map some ≠ .ok none := by
  cases e <;> simp [Except.map]

theorem message_parse_complete_not_none (l : List Nat) (hd : Header)
    (hh : Header.parse l = .ok (some hd)) (hl : l.length = hd.len + 1) :
    Message.parse l ≠ .ok none := by
  rcases l with _ | ⟨t, _ | ⟨a, _ | ⟨b, _ | ⟨c, _ | ⟨d, r⟩⟩⟩⟩⟩
  · simp [Header.parse] at hh
  · simp [Header.parse] at hh
  · simp [Header.parse] at hh
  · simp [Header.parse] at hh
  · simp [Header.parse] at hh
  · obtain ⟨he, h4, _⟩ := header_parse_cons_inv t a b c d r hd hh
    have hl' : r.length + 5 = readU32BE a b c d + 1 := by
      rw [he] at hl
      simpa using hl
    intro hcontra
    simp only [Message.parse] at hcontra
    rw [if_neg (by omega), if_neg (by omega)] at hcontra
    exact map_some_ne_none _ hcontra

theorem decode_pending_short (pending : List Nat) (h : pending.length < 5) :
    decode_pending pending = .ok (none, pending) := by
  simp only [decode_pending, header_parse_short pending h]

theorem decode_pending_need_more (pending : List Nat) (hd : Header)
    (hh : Header.parse pending = .ok (some hd)) (hl : pending.length < hd.len + 1) :
    decode_pending pending = .ok (none, pending) := by
  simp only [decode_pending, hh]
  rw [if_neg (by omega)]

theorem decode_pending_some_inv (b : List Nat) (m : Message) (r : List Nat)
    (h : decode_pending b = .ok (some m, r)) :
    ∃ hd, Header.parse b = .ok (some hd) ∧ hd.len + 1 ≤ b.length ∧
      Message.parse (b.take (hd.len + 1)) = .ok (some m) ∧ r = b.drop (hd.len + 1) := by
  unfold decode_pending at h
  split at h
  · exact absurd h (by simp)
  · exact absurd h (by simp)
  · next hd hh =>
    split at h
    · next hle =>
      split at h
      · exact absurd h (by simp)
      · next mo hmp =>
        simp only [Except.ok.injEq, Prod.mk.injEq] at h
        obtain ⟨hmo, hr⟩ := h
        subst hmo
        exact ⟨hd, hh, hle, hmp, hr.symm⟩
    · exact absurd h (by simp)

theorem decode_pending_exact (b : List Nat) (m : Message)
    (h : decode_pending b = .ok (some m, [])) :
    ∃ hd, Header.parse b = .ok (some hd) ∧ b.length = hd.len + 1 ∧
      Message.parse b = .ok (some m) := by
  obtain ⟨hd, hh, hle, hmp, hr⟩ := decode_pending_some_inv b m [] h
  have hlen : b.length = hd.len + 1 := by
    have := congrArg List.length hr
    simp [List.length_drop] at this
    omega
  have htake : b.take (hd.len + 1) = b := by
    rw [← hlen]
    exact List.take_length b
  rw [htake] at hmp
  exact ⟨hd, hh, hlen, hmp⟩

theorem decode_pending_append (b t : List Nat) (m : Message)
    (hb : decode_pending b = .ok (some m, [])) :
    decode_pending (b ++ t) = .ok (some m, t) := by
  obtain ⟨hd, hh, hlen, hmp⟩ := decode_pending_exact b m hb
  have h5 : 5 ≤ b.length := (header_parse_some b hd hh).2
  have htake5 : (b ++ t).take 5 = b.take 5 := by
    rw [List.take_append_eq_append_take]
    simp [Nat.sub_eq_zero_of_le h5]
  have hh2 : Header.parse (b ++ t) = .ok (some hd) := by
    rw [← header_parse_take5 (b ++ t), htake5, header_parse_take5 b, hh]
  have htake : (b ++ t).take (hd.len + 1) = b := by
    rw [← hlen]
    exact List.take_left b t
  have hdrop : (b ++ t).drop (hd.len + 1) = t := by
    rw [← hlen]
    exact List.drop_left b t
  have hlb := List.length_append b t
  simp only [decode_pending, hh2]
  rw [if_pos (by omega), htake, hmp, hdrop]

theorem decode_pending_of_proper_front (w q s : List Nat) (mw : Message)
    (hw : decode_pending w = .ok (some mw, []))
    (hsplit : q ++ s = w) (hlen : q.length < w.length) :
    decode_pending q = .ok (none, q) := by
  obtain ⟨hd, hh, hwlen, _⟩ := decode_pending_exact w mw hw
  by_cases h5 : q.length < 5
  · exact decode_pending_short q h5
  · push_neg at h5
    subst hsplit
    have htake5 : q.take 5 = (q ++ s).take 5 := by
      rw [List.take_append_eq_append_take]
      simp [Nat.sub_eq_zero_of_le h5]
    have hhq : Header.parse q = .ok (some hd) := by
      rw [← header_parse_take5 q, htake5, header_parse_take5 (q ++ s), hh]
    have hql := List.length_append q s
    exact decode_pending_need_more q hd hhq (by omega)

theorem drainFuel_succ (n : Nat) (pending : List Nat) :
    drainFuel (n + 1) pending =
      match decode_pending pending with
      | .error e => .error e
      | .ok (none, rest) => .ok ([], rest)
      | .ok (some m, rest) =>
        match drainFuel n rest with
        | .error e => .error e
        | .ok (ms, fin) => .ok (m :: ms, fin) := rfl

/-! ### Claim theorems: the framing layer -/

/-- Claim C1: for every state of the pending buffer, `decode_pending`
returns needs-more-data (`none`) without consuming any bytes when pending is
shorter than a complete 5-byte header or holds fewer than
`declared_length + 1` bytes; a malformed header yields an error; and
otherwise the call removes exactly `declared_length + 1` bytes from the
front of pending and parses them into one `Message` — the outcome is one
parsed message or a parse error, never needs-more-data. -/
theorem c1_decode_pending_spec (pending : List Nat) :
    (pending.length < 5 → decode_pending pending = .ok (none, pending)) ∧
    (∀ e, Header.parse pending = .error e →
      ∃ e2, decode_pending pending = .error e2) ∧
    (∀ hd, Header.parse pending = .ok (some hd) → pending.length < hd.len + 1 →
      decode_pending pending = .ok (none, pending)) ∧
    (∀ hd, Header.parse pending = .ok (some hd) → hd.len + 1 ≤ pending.length →
      (∃ m, decode_pending pending = .ok (some m, pending.drop (hd.len + 1))) ∨
      (∃ e, decode_pending pending = .error e)) := by
  refine ⟨fun h => decode_pending_short pending h, ?_, ?_, ?_⟩
  · intro e he
    exact ⟨errHeaderCtx ++ e, by simp only [decode_pending, he]⟩
  · intro hd hh hl
    exact decode_pending_need_more pending hd hh hl
  · intro hd hh hl
    have h4 : 4 ≤ hd.len := (header_parse_some pending hd hh).1
    have htl : (pending.take (hd.len + 1)).length = hd.len + 1 := by
      simp [List.length_take]
      omega
    have htake5 : (pending.take (hd.len + 1)).take 5 = pending.take 5 := by
      rw [List.take_take]
      congr 1
      omega
    have hht : Header.parse (pending.take (hd.len + 1)) = .ok (some hd) := by
      rw [← header_parse_take5 (pending.take (hd.len + 1)), htake5,
        header_parse_take5 pending, hh]
    cases hmp : Message.parse (pending.take (hd.len + 1)) with
    | error e =>
      right
      exact ⟨errMessageCtx ++ e, by simp only [decode_pending, hh]; rw [if_pos hl, hmp]⟩
    | ok mo =>
      cases mo with
      | none => exact absurd hmp (message_parse_complete_not_none _ hd hht htl)
      | some m =>
        left
        exact ⟨m, by simp only [decode_pending, hh]; rw [if_pos hl, hmp]⟩

/-- Witness for C1 at the concrete AuthenticationOk wire message. -/
theorem c1_witness :
    (∃ m, decode_pending authOkMsg = .ok (some m, authOkMsg.drop 9)) ∨
    (∃ e, decode_pending authOkMsg = .error e) :=
  (c1_decode_pending_spec authOkMsg).2.2.2 ⟨82, 8⟩ (by decide) (by decide)

/-- Claim C2: for every byte sequence that `decode_pending` accepts as
exactly one complete message, and every way of splitting it into chunks,
feeding the chunks through the `decode` loop reconstructs exactly that one
message (draining the buffer completely); the unsplit input is the
single-chunk instance, so reassembly is independent of chunk boundaries. -/
theorem c2_chunk_independence (msg : List Nat) (m : Message)
    (chunks : List (List Nat))
    (hm : decode_pending msg = .ok (some m, []))
    (hj : chunks.flatten = msg) :
    ∃ c', decodeFuel (chunks.length + 1) [] chunks =
      some (.ok (some m), [], c') := by
  suffices H : ∀ (cs : List (List Nat)) (p : List Nat), p ++ cs.flatten = msg →
      ∃ c', decodeFuel (cs.length + 1) p cs = some (.ok (some m), [], c') from
    H chunks [] (by simpa using hj)
  intro cs
  induction cs with
  | nil =>
    intro p hp
    simp only [List.flatten_nil, List.append_nil] at hp
    subst hp
    exact ⟨[], by simp [decodeFuel, hm]⟩
  | cons c cs ih =>
    intro p hp
    by_cases hpm : p = msg
    · subst hpm
      exact ⟨c :: cs, by simp [decodeFuel, hm]⟩
    · have hlp := List.length_append p (c :: cs).flatten
      have hlt : p.length < msg.length := by
        rw [← hp, hlp]
        by_cases hfl : (c :: cs).flatten.length = 0
        · exfalso
          apply hpm
          have hfe : (c :: cs).flatten = [] := List.length_eq_zero.mp hfl
          rw [hfe] at hp
          simpa using hp
        · omega
      have hnone : decode_pending p = .ok (none, p) :=
        decode_pending_of_proper_front msg p ((c :: cs).flatten) m hm hp hlt
      have hstep : decodeFuel ((c :: cs).length + 1) p (c :: cs) =
          decodeFuel (cs.length + 1) (p ++ c) cs := by
        simp [decodeFuel, hnone]
      rw [hstep]
      exact ih (p ++ c) (by rw [← hp]; simp [List.flatten_cons, List.append_assoc])

/-- Witness for C2: the AuthenticationOk message split into three chunks at
offsets 2 and 6 is reassembled into the same message. -/
theorem c2_witness :
    decode_pending authOkMsg = .ok (some Message.authenticationOk, []) ∧
    ∃ c', decodeFuel (3 + 1) [] [[82, 0], [0, 0, 8, 0], [0, 0, 0]] =
      some (.ok (some Message.authenticationOk), [], c') :=
  ⟨by decide, c2_chunk_independence authOkMsg Message.authenticationOk
    [[82, 0], [0, 0, 8, 0], [0, 0, 0]] (by decide) (by decide)⟩

/-- Claim C3 (code bug in `Connection::decode`): when the transport signals
end-of-stream while no complete message is buffered, the decode loop never
terminates (for every amount of fuel it fails to return), because the code
never checks the reader's `done` flag and turns the end-of-stream `undefined`
value into an empty chunk, looping on an unchanged buffer.  The spec (and
the dead `None => "Connection closed"` arms of the code's own callers at
`src/client/src/connection.rs:102,152,173,192`) instead require `Ok(None)`. -/
theorem c3_decode_eos_diverges (pending : List Nat)
    (h : decode_pending pending = .ok (none, pending)) :
    ∀ fuel, decodeFuel fuel pending [] = none := by
  intro fuel
  induction fuel with
  | zero => rfl
  | succ f ih => simp [decodeFuel, h, ih]

/-- Witness for C3 at the empty pending buffer. -/
theorem c3_witness :
    decode_pending [] = .ok (none, []) ∧ decodeFuel 1000 [] [] = none :=
  ⟨by decide, c3_decode_eos_diverges [] (by decide) 1000⟩

/-- Claim C5: for every pending buffer holding N ≥ 1 complete messages
followed by a (possibly empty) proper front of a further complete message,
iterating `decode_pending` drains exactly the N messages in order and then
reports needs-more-data with the untouched partial bytes as the remaining
buffer; and from any of the intermediate states, one iteration of the
`decode` loop returns the next buffered message with fuel 1 and the chunk
stream untouched — no network read happens before the buffer is drained. -/
theorem c5_drain (bs : List (List Nat × Message)) (w q s : List Nat)
    (mw : Message)
    (_hbs : bs ≠ [])
    (hc : ∀ pm ∈ bs, decode_pending pm.1 = .ok (some pm.2, []))
    (hw : decode_pending w = .ok (some mw, []))
    (hsplit : q ++ s = w) (hlen : q.length < w.length) :
    drainFuel (bs.length + 1) ((bs.map Prod.fst).flatten ++ q) =
      .ok (bs.map Prod.snd, q) ∧
    ∀ (chunks : List (List Nat)) (bs1 : List (List Nat × Message))
      (pm : List Nat × Message) (bs2 : List (List Nat × Message)),
      bs = bs1 ++ pm :: bs2 →
      decodeFuel 1 (((pm :: bs2).map Prod.fst).flatten ++ q) chunks =
        some (.ok (some pm.2), (bs2.map Prod.fst).flatten ++ q, chunks) := by
  have hq : decode_pending q = .ok (none, q) :=
    decode_pending_of_proper_front w q s mw hw hsplit hlen
  constructor
  · clear _hbs
    revert hc
    induction bs with
    | nil =>
      intro hc
      simp [drainFuel, hq]
    | cons b bs ih =>
      intro hc
      have hb := hc b (by simp)
      have hdp : decode_pending (b.1 ++ ((bs.map Prod.fst).flatten ++ q)) =
          .ok (some b.2, (bs.map Prod.fst).flatten ++ q) :=
        decode_pending_append b.1 _ b.2 hb
      have ihh := ih (fun pm hpm => hc pm (List.mem_cons_of_mem b hpm))
      simp only [List.map_cons, List.flatten_cons, List.append_assoc,
        List.length_cons]
      rw [drainFuel_succ, hdp]
      simp [ihh]
  · intro chunks bs1 pm bs2 heq
    have hpm : decode_pending pm.1 = .ok (some pm.2, []) :=
      hc pm (by simp [heq])
    have hdp := decode_pending_append pm.1 ((bs2.map Prod.fst).flatten ++ q)
      pm.2 hpm
    simp only [List.map_cons, List.flatten_cons, List.append_assoc]
    simp [decodeFuel, hdp]

/-- Witness for C5: one complete AuthenticationOk message followed by the
first two bytes of a ReadyForQuery message. -/
theorem c5_witness :
    drainFuel 2 (authOkMsg ++ [90, 0]) = .ok ([Message.authenticationOk], [90, 0]) ∧
    decodeFuel 1 (authOkMsg ++ [90, 0]) [] =
      some (.ok (some Message.authenticationOk), [90, 0], []) := by
  have h := c5_drain [(authOkMsg, Message.authenticationOk)] readyMsg [90, 0]
    [0, 0, 5, 73] (Message.readyForQuery 73) (by decide) (by decide) (by decide)
    (by decide) (by decide)
  refine ⟨by simpa using h.1, ?_⟩
  simpa using h.2 [] [] (authOkMsg, Message.authenticationOk) [] rfl

/-! ### Claim theorems: the startup / authentication sequence -/

/-- Counterexample for C4: the result of `Startup::start` on the literal
successful exchange is the bare connection (its drained buffer state) and is
**identical** whether the backend announced `server_version = "16.0"` or
`"17.0"` — the run cannot surface the collected parameter to the caller,
because the drain loop discards `ParameterStatus` data (the
`TODO: use the backend or parameter data` arm at
`src/client/src/connection.rs:187`). -/
theorem c4_counterexample :
    startup_start okScram exchange16 = startup_start okScram exchange17 ∧
    startup_start okScram exchange16 =
      ([SendEvent.startup, SendEvent.saslInitial, SendEvent.saslResponse],
        some (.ok ([], []))) :=
  ⟨by decide, by decide⟩

/-- Claim C4 (amended): a successful `Startup::start` run against the
literal exchange — startup sent, AuthenticationSASL received, SASL initial
response sent, AuthenticationSASLContinue received, SASL response sent,
AuthenticationSASLFinal received, then AuthenticationOk, BackendKeyData,
ParameterStatus("server_version","16.0") and ReadyForQuery received —
terminates successfully with the fully drained connection; the collected
parameter is discarded rather than surfaced. -/
theorem c4_amended (scram : ScramOracle)
    (hu : scram.update serverFirstBytes = .ok ())
    (hf : scram.finish serverFinalBytes = .ok ()) :
    startup_start scram exchange16 =
      ([SendEvent.startup, SendEvent.saslInitial, SendEvent.saslResponse],
        some (.ok ([], []))) := by
  have h1 : decodeRun [] exchange16 =
      some (.ok (some (Message.authenticationSasl
          [83, 67, 82, 65, 77, 45, 83, 72, 65, 45, 50, 53, 54, 0, 0])), [],
        [saslContinueMsg, saslFinalMsg,
          authOkMsg ++ keyDataMsg ++ paramStatusMsg [49, 54, 46, 48] ++ readyMsg]) := by
    decide
  have h2 : decodeRun []
      [saslContinueMsg, saslFinalMsg,
        authOkMsg ++ keyDataMsg ++ paramStatusMsg [49, 54, 46, 48] ++ readyMsg] =
      some (.ok (some (Message.authenticationSaslContinue serverFirstBytes)), [],
        [saslFinalMsg,
          authOkMsg ++ keyDataMsg ++ paramStatusMsg [49, 54, 46, 48] ++ readyMsg]) := by
    decide
  have h3 : decodeRun []
      [saslFinalMsg,
        authOkMsg ++ keyDataMsg ++ paramStatusMsg [49, 54, 46, 48] ++ readyMsg] =
      some (.ok (some (Message.authenticationSaslFinal serverFinalBytes)), [],
        [authOkMsg ++ keyDataMsg ++ paramStatusMsg [49, 54, 46, 48] ++ readyMsg]) := by
    decide
  have h4 : drainLoop
      (saslDrainFuel []
        [authOkMsg ++ keyDataMsg ++ paramStatusMsg [49, 54, 46, 48] ++ readyMsg]) []
      [authOkMsg ++ keyDataMsg ++ paramStatusMsg [49, 54, 46, 48] ++ readyMsg] =
      some (.ok ([], [])) := by
    decide
  simp only [startup_start, sasl, saslAfterContinue, h1, h2, h3, h4, hu, hf]

/-- Witness for C4 (amended) with the always-accepting SCRAM oracle. -/
theorem c4_witness :
    okScram.update serverFirstBytes = .ok () ∧
    okScram.finish serverFinalBytes = .ok () ∧
    startup_start okScram exchange16 =
      ([SendEvent.startup, SendEvent.saslInitial, SendEvent.saslResponse],
        some (.ok ([], []))) :=
  ⟨rfl, rfl, c4_amended okScram rfl rfl⟩

/-- Counterexample for C6: an `ErrorResponse` whose message field is
"password authentication failed", delivered at the decode point right after
the startup message, hits the generic `Some(_)` arm of `Startup::start`
(`src/client/src/connection.rs:101`): the resulting error text is
"Unsupported backend message type", which does **not** contain
"password authentication failed". -/
theorem c6_counterexample :
    startup_start okScram [pafErrorMsg] =
      ([SendEvent.startup], some (.error errUnsupportedBackend)) ∧
    containsSeq pafBytes errUnsupportedBackend = false :=
  ⟨by decide, by decide⟩

/-- Claim C6 (amended): at every decode point of the authentication
sequence, a message other than the expected kind for the current state, or a
backend `ErrorResponse`, immediately fails the whole sequence with a fatal
error and no further sends occur (a closed stream instead makes the decode
loop hang — the C3 bug — so no error is produced there); after the startup
message only `AuthenticationSASL` is accepted and every other message,
`ErrorResponse` included, yields the generic
"Unsupported backend message type" error; an `ErrorResponse` at the
SASL-continue, SASL-final or session-drain decode points yields the
formatted error, whose text for the "password authentication failed"
response contains that message. -/
theorem c6_amended (scram : ScramOracle) (pending : List Nat)
    (chunks : List (List Nat)) :
    (∀ m p' c', decodeRun [] chunks = some (.ok (some m), p', c') →
      (∀ b, m ≠ Message.authenticationSasl b) →
      startup_start scram chunks =
        ([SendEvent.startup], some (.error errUnsupportedBackend))) ∧
    (decodeRun [] chunks = none →
      startup_start scram chunks = ([SendEvent.startup], none)) ∧
    (∀ body p' c',
      decodeRun pending chunks = some (.ok (some (Message.errorResponse body)), p', c') →
      sasl scram pending chunks =
        ([SendEvent.saslInitial], some (.error (format_error body)))) ∧
    (∀ m p' c', decodeRun pending chunks = some (.ok (some m), p', c') →
      (∀ b, m ≠ Message.authenticationSaslContinue b) →
      (∀ b, m ≠ Message.errorResponse b) →
      sasl scram pending chunks =
        ([SendEvent.saslInitial], some (.error errUnexpectedSasl))) ∧
    (∀ body p' c',
      decodeRun pending chunks = some (.ok (some (Message.errorResponse body)), p', c') →
      saslAfterContinue scram pending chunks =
        ([SendEvent.saslResponse], some (.error (format_error body)))) ∧
    (∀ body p' c' f,
      decodeRun pending chunks = some (.ok (some (Message.errorResponse body)), p', c') →
      drainLoop (f + 1) pending chunks = some (.error (format_error body))) ∧
    (∀ m p' c' f, decodeRun pending chunks = some (.ok (some m), p', c') →
      m ≠ Message.authenticationOk →
      (∀ a b, m ≠ Message.backendKeyData a b) →
      (∀ a b, m ≠ Message.parameterStatus a b) →
      (∀ b, m ≠ Message.readyForQuery b) →
      (∀ b, m ≠ Message.errorResponse b) →
      drainLoop (f + 1) pending chunks = some (.error errUnexpectedBackend)) ∧
    containsSeq pafBytes (format_error pafStorage) = true := by
  refine ⟨?_, ?_, ?_, ?_, ?_, ?_, ?_, by decide⟩
  · intro m p' c' hdec hne
    cases m <;> first
      | exact absurd rfl (hne _)
      | simp [startup_start, hdec]
  · intro h
    simp [startup_start, h]
  · intro body p' c' hdec
    simp [sasl, hdec]
  · intro m p' c' hdec hne1 hne2
    cases m <;> first
      | exact absurd rfl (hne1 _)
      | exact absurd rfl (hne2 _)
      | simp [sasl, hdec]
  · intro body p' c' hdec
    simp [saslAfterContinue, hdec]
  · intro body p' c' f hdec
    simp [drainLoop, hdec]
  · intro m p' c' f hdec hne0 hne1 hne2 hne3 hne4
    cases m <;> first
      | exact absurd rfl hne0
      | exact absurd rfl (hne1 _ _)
      | exact absurd rfl (hne2 _ _)
      | exact absurd rfl (hne3 _)
      | exact absurd rfl (hne4 _)
      | simp [drainLoop, hdec]

/-- Witness for C6 (amended): the "password authentication failed"
ErrorResponse delivered at the SASL-continue decode point. -/
theorem c6_witness :
    sasl okScram [] [pafErrorMsg] =
      ([SendEvent.saslInitial], some (.error (format_error pafStorage))) :=
  (c6_amended okScram [] [pafErrorMsg]).2.2.1 pafStorage [] [] (by decide)

/-! ### Claim theorems: session negotiation and the relay task -/

/-- Claim C7: a first HTTP/3 request whose method is not CONNECT or whose
protocol extension is not WEB_TRANSPORT makes `Session::start` fail with a
negotiation error without ever reaching `WebTransportSession::accept`; and
the session-accept step is reached only when both checks passed. -/
theorem c7_negotiation (i : StartInput) :
    (∀ req, i.accept = .ok (some req) →
      (req.method ≠ Method.CONNECT ∨ req.protocol ≠ some Protocol.WEB_TRANSPORT) →
      (∃ e, (session_start i).1 = .error e) ∧
        NegotiateEvent.sessionAccept ∉ (session_start i).2) ∧
    (NegotiateEvent.sessionAccept ∈ (session_start i).2 →
      ∃ req, i.accept = .ok (some req) ∧ req.method = Method.CONNECT ∧
        req.protocol = some Protocol.WEB_TRANSPORT) := by
  obtain ⟨ic, ih3, ia, is⟩ := i
  constructor
  · intro req ha hbad
    simp only at ha
    subst ha
    rcases ic with e | ⟨⟩
    · exact ⟨⟨e, rfl⟩, by simp [session_start]⟩
    rcases ih3 with e | ⟨⟩
    · exact ⟨⟨e, rfl⟩, by simp [session_start]⟩
    by_cases hm : req.method = Method.CONNECT
    · have hp : req.protocol ≠ some Protocol.WEB_TRANSPORT := by
        rcases hbad with hb | hb
        · exact absurd hm hb
        · exact hb
      exact ⟨⟨errNotWebTransport, by simp [session_start, hm, hp]⟩,
        by simp [session_start, hm, hp]⟩
    · exact ⟨⟨errNotConnect, by simp [session_start, hm]⟩,
        by simp [session_start, hm]⟩
  · intro hmem
    rcases ic with e | ⟨⟩
    · simp [session_start] at hmem
    rcases ih3 with e | ⟨⟩
    · simp [session_start] at hmem
    rcases ia with e | o
    · simp [session_start] at hmem
    rcases o with _ | req
    · simp [session_start] at hmem
    by_cases hm : req.method = Method.CONNECT
    · by_cases hp : req.protocol = some Protocol.WEB_TRANSPORT
      · exact ⟨req, rfl, hm, hp⟩
      · simp [session_start, hm, hp] at hmem
    · simp [session_start, hm] at hmem

/-- A GET request carrying the WebTransport protocol extension. -/
def getStartInput : StartInput :=
  { connecting := .ok (), h3build := .ok (),
    accept := .ok (some { method := Method.GET,
                          protocol := some Protocol.WEB_TRANSPORT }),
    sessionAccept := .ok () }

/-- Witness for C7 at the GET request. -/
theorem c7_witness :
    (∃ e, (session_start getStartInput).1 = .error e) ∧
      NegotiateEvent.sessionAccept ∉ (session_start getStartInput).2 :=
  (c7_negotiation getStartInput).1
    ⟨Method.GET, some Protocol.WEB_TRANSPORT⟩ rfl (Or.inl (by decide))

theorem accept_bidirectional_ok (i : BidiInput)
    (h : (accept_bidirectional i).1 = some (.ok ())) :
    (accept_bidirectional i).2 = [greeting] := by
  obtain ⟨ia, iw⟩ := i
  rcases ia with e | o
  · simp [accept_bidirectional] at h
  rcases o with _ | ab
  · simp [accept_bidirectional] at h
  cases ab
  case bidiStream =>
    rcases iw with e | ⟨⟩
    · simp [accept_bidirectional] at h
    · simp [accept_bidirectional]
  case request => simp [accept_bidirectional] at h

/-- Claim C9: every `Session::accept_bidirectional` call that returns `Ok`
wrote exactly the 19-byte greeting "hello webtransport!" to the accepted
stream before handing it back; and in the per-connection task the relayed
TCP bytes are written only after it, so the client observes the greeting
bytes ahead of any relayed bytes. -/
theorem c9_greeting (i : BidiInput) (t : TaskInput) :
    ((accept_bidirectional i).1 = some (.ok ()) →
      (accept_bidirectional i).2 = [greeting]) ∧
    greeting.length = 19 ∧
    ((connection_task t).2.2 = some (.ok ()) →
      (connection_task t).2.1 = greeting :: t.relayed) := by
  refine ⟨accept_bidirectional_ok i, by decide, ?_⟩
  intro h
  rcases hs : (session_start t.session).1 with e | ⟨⟩
  · rw [connection_task, hs] at h
    simp at h
  rcases ho : (accept_bidirectional t.bidi).1 with _ | exo
  · rw [connection_task, hs] at h
    dsimp only at h
    rw [ho] at h
    simp at h
  rcases exo with e2 | ⟨⟩
  · rw [connection_task, hs] at h
    dsimp only at h
    rw [ho] at h
    simp at h
  rcases ht : t.tcpConnect with e3 | ⟨⟩
  · rw [connection_task, hs] at h
    dsimp only at h
    rw [ho, ht] at h
    simp at h
  rw [connection_task, hs]
  dsimp only
  rw [ho, ht]
  dsimp only
  rw [accept_bidirectional_ok t.bidi (by rw [ho])]
  simp

/-- A successful stream accept. -/
def okBidiInput : BidiInput :=
  { acceptBi := .ok (some AcceptedBi.bidiStream), writeGreeting := .ok () }

/-- A fully successful per-connection task relaying one TCP chunk. -/
def okTaskInput : TaskInput :=
  { session := { connecting := .ok (), h3build := .ok (),
                 accept := .ok (some { method := Method.CONNECT,
                                       protocol := some Protocol.WEB_TRANSPORT }),
                 sessionAccept := .ok () }
    bidi := okBidiInput
    tcpConnect := .ok ()
    relayed := [[1, 2, 3]] }

/-- Witness for C9 at a fully successful run. -/
theorem c9_witness :
    (accept_bidirectional okBidiInput).2 = [greeting] ∧
    (connection_task okTaskInput).2.1 = greeting :: [[1, 2, 3]] := by
  have h := c9_greeting okBidiInput okTaskInput
  exact ⟨h.1 (by decide), h.2.2 (by decide)⟩

/-- Counterexample for C10: a QUIC connection whose first HTTP/3 request
uses GET fails negotiation, so the per-connection task ends with **zero**
calls to `accept_bidirectional` — not exactly one. -/
def getTask : TaskInput :=
  { session := { connecting := .ok (), h3build := .ok (),
                 accept := .ok (some { method := Method.GET,
                                       protocol := some Protocol.WEB_TRANSPORT }),
                 sessionAccept := .ok () }
    bidi := { acceptBi := .ok (some AcceptedBi.bidiStream), writeGreeting := .ok () }
    tcpConnect := .ok ()
    relayed := [] }

theorem c10_counterexample :
    connection_task getTask = ([], [], some (.error errNotConnect)) ∧
    (connection_task getTask).1.count TaskEvent.acceptBidi = 0 :=
  ⟨by decide, by decide⟩

/-- Claim C10 (amended): the per-connection task calls
`accept_bidirectional` at most once and starts at most one relay — a second
bidirectional stream on the same session is never accepted or relayed; the
accept happens exactly once whenever session negotiation succeeded, and a
fully successful task performs exactly one accept followed by exactly one
relay start. -/
theorem c10_amended (t : TaskInput) :
    (connection_task t).1.count TaskEvent.acceptBidi ≤ 1 ∧
    (connection_task t).1.count TaskEvent.proxyStart ≤ 1 ∧
    ((session_start t.session).1 = .ok () →
      (connection_task t).1.count TaskEvent.acceptBidi = 1) ∧
    ((connection_task t).2.2 = some (.ok ()) →
      (connection_task t).1 = [TaskEvent.acceptBidi, TaskEvent.proxyStart]) := by
  rcases hs : (session_start t.session).1 with e | ⟨⟩
  · have hc : connection_task t = ([], [], some (.error e)) := by
      rw [connection_task, hs]
    rw [hc]
    refine ⟨by simp, by simp, ?_, by simp⟩
    intro hok
    simp at hok
  rcases ho : (accept_bidirectional t.bidi).1 with _ | exo
  · have hc : connection_task t =
        ([TaskEvent.acceptBidi], (accept_bidirectional t.bidi).2, none) := by
      rw [connection_task, hs]
      dsimp only
      rw [ho]
    rw [hc]
    exact ⟨by simp [List.count_cons], by simp [List.count_cons],
      fun _ => by simp [List.count_cons], by simp⟩
  rcases exo with e2 | ⟨⟩
  · have hc : connection_task t =
        ([TaskEvent.acceptBidi], (accept_bidirectional t.bidi).2,
          some (.error e2)) := by
      rw [connection_task, hs]
      dsimp only
      rw [ho]
    rw [hc]
    exact ⟨by simp [List.count_cons], by simp [List.count_cons],
      fun _ => by simp [List.count_cons], by simp⟩
  rcases ht : t.tcpConnect with e3 | ⟨⟩
  · have hc : connection_task t =
        ([TaskEvent.acceptBidi, TaskEvent.proxyStart],
          (accept_bidirectional t.bidi).2,
          some (.error (errTcpConnectCtx ++ e3))) := by
      rw [connection_task, hs]
      dsimp only
      rw [ho, ht]
    rw [hc]
    exact ⟨by simp [List.count_cons], by simp [List.count_cons],
      fun _ => by simp [List.count_cons], by simp⟩
  · have hc : connection_task t =
        ([TaskEvent.acceptBidi, TaskEvent.proxyStart],
          (accept_bidirectional t.bidi).2 ++ t.relayed, some (.ok ())) := by
      rw [connection_task, hs]
      dsimp only
      rw [ho, ht]
    rw [hc]
    exact ⟨by simp [List.count_cons], by simp [List.count_cons],
      fun _ => by simp [List.count_cons], fun _ => rfl⟩

/-- A fully successful per-connection task. -/
def connectTask : TaskInput :=
  { session := { connecting := .ok (), h3build := .ok (),
                 accept := .ok (some { method := Method.CONNECT,
                                       protocol := some Protocol.WEB_TRANSPORT }),
                 sessionAccept := .ok () }
    bidi := { acceptBi := .ok (some AcceptedBi.bidiStream), writeGreeting := .ok () }
    tcpConnect := .ok ()
    relayed := [] }

/-- Witness for C10 (amended) at a fully successful task. -/
theorem c10_witness :
    (session_start connectTask.session).1 = .ok () ∧
    (connection_task connectTask).1.count TaskEvent.acceptBidi = 1 ∧
    (connection_task connectTask).2.2 = some (.ok ()) ∧
    (connection_task connectTask).1 = [TaskEvent.acceptBidi, TaskEvent.proxyStart] := by
  have h := c10_amended connectTask
  exact ⟨by decide, h.2.2.1 (by decide), by decide, h.2.2.2 (by decide)⟩

end PgWT
